import Mathlib

/-!
Shallow embedding of `crates/cli/src/server.rs` from the
matrix-authentication-service repository, together with proofs about the
claims of its specification.

The embedding covers:
* `OtelMakeSpan::make_span` (trace-context extraction, span creation),
* `OtelOnResponse::on_response` (status classification and recording),
* `shutdown_signal` (signal-listener installation, modelled so that a
  failed `expect` becomes an `Except.error`, standing for a process abort),
* `watch_templates` (per-root resolve/subscribe setup, the merged
  change-event stream, the `try_filter_map` filter and the `try_for_each`
  reload loop).

Asynchronous streams are modelled as finite lists of `Except`-wrapped
items (a finite prefix of the merged stream produced by
`futures::stream::select_all`); the reload operation is modelled as an
oracle mapping the invocation index and the changed-file list to a result,
since its outcome depends on the filesystem state at call time.
-/

namespace MasServer

/-- The `hyper::Version` enum as matched in `make_span` (lines 76-83 of
`server.rs`): the five known HTTP versions plus a catch-all for the
non-exhaustive remainder (the `_` arm). -/
inductive Version where
  | HTTP_09
  | HTTP_10
  | HTTP_11
  | HTTP_2
  | HTTP_3
  | Other
deriving DecidableEq

/-- The `match request.version()` expression of `make_span`: each known
version maps to its canonical textual string, anything else to `""`. -/
def versionString : Version → String
  | .HTTP_09 => "0.9"
  | .HTTP_10 => "1.0"
  | .HTTP_11 => "1.1"
  | .HTTP_2 => "2.0"
  | .HTTP_3 => "3.0"
  | .Other => ""

/-- An OpenTelemetry span context, as inspected by
`cx.span().span_context().is_remote()`. The empty/default context has
trace id 0, span id 0 and is not remote. -/
structure SpanContext where
  traceId : Nat
  spanId : Nat
  isRemote : Bool
deriving DecidableEq

/-- The invalid/empty span context (`SpanContext::empty_context()`). -/
def SpanContext.empty : SpanContext := { traceId := 0, spanId := 0, isRemote := false }

/-- An OpenTelemetry `Context`, reduced to the span context of the span it
carries (an empty context carries a no-op span with the empty span
context). -/
structure Context where
  spanContext : SpanContext
deriving DecidableEq

/-- `opentelemetry::Context::new()`: a fresh empty context. -/
def Context.new : Context := { spanContext := SpanContext.empty }

/-- A header value is a byte sequence; a header map is a list of
name/value pairs with lowercase names, as in `http::HeaderMap`. -/
def Headers : Type := List (String × List Nat)

/-- `HeaderMap::get`: the first value stored under the name, if any. -/
def headerGet (headers : Headers) (headerName : String) : Option (List Nat) :=
  (headers.find? fun h => h.fst == headerName).map Prod.snd

/-- A byte that `http::HeaderValue::to_str` accepts: visible ASCII
(32..=126) or horizontal tab. -/
def isVisibleAscii (b : Nat) : Bool := (32 ≤ b && b < 127) || b == 9

/-- `HeaderValue::to_str().ok()`: `some` of the decoded string when every
byte is visible ASCII, `none` otherwise. -/
def toStr (bytes : List Nat) : Option String :=
  if bytes.all isVisibleAscii then some (String.mk (bytes.map Char.ofNat)) else none

/-- An inbound HTTP request as read by `make_span`: method, target URI,
protocol version and headers. -/
structure Request where
  method : String
  uri : String
  version : Version
  headers : Headers

/-- The tracing span built by `make_span` and finalized by `on_response`:
the recorded fields, with `none` standing for `field::Empty`, plus the
context the span is parented under. -/
structure Span where
  httpMethod : String
  httpTarget : String
  httpFlavor : String
  httpStatusCode : Option Nat
  httpUserAgent : Option String
  otelKind : String
  otelStatusCode : Option String
  parent : Context
deriving DecidableEq

/-- `OtelMakeSpan::make_span` (lines 57-104): extract a context from the
headers through the global propagator (passed here as the `extract`
parameter), keep it as parent only when its span context is remote and
otherwise use a fresh `Context::new()`, map the protocol version to its
string, and record the user-agent header when it is present and decodes
with `to_str`. -/
def make_span (extract : Headers → Context) (request : Request) : Span :=
  let cx0 := extract request.headers
  let cx := if cx0.spanContext.isRemote then cx0 else Context.new
  let version := versionString request.version
  let ua := (headerGet request.headers "user-agent").bind toStr
  { httpMethod := request.method
    httpTarget := request.uri
    httpFlavor := version
    httpStatusCode := none
    httpUserAgent := ua
    otelKind := "server"
    otelStatusCode := none
    parent := cx }

/-- `http::StatusCode::is_success`: 2xx. -/
def is_success (s : Nat) : Bool := 200 ≤ s && s < 300

/-- `http::StatusCode::is_client_error`: 4xx. -/
def is_client_error (s : Nat) : Bool := 400 ≤ s && s < 500

/-- `http::StatusCode::is_server_error`: 5xx. -/
def is_server_error (s : Nat) : Bool := 500 ≤ s && s < 600

/-- The classification expression of `on_response` (lines 113-119):
`"ok"` for a success status, `"error"` for a client or server error,
`"unset"` otherwise. -/
def otelStatus (s : Nat) : String :=
  if is_success s then "ok"
  else if is_client_error s || is_server_error s then "error"
  else "unset"

/-- `OtelOnResponse::on_response` (lines 111-122): record the coarse
classification in `otel.status_code` and the literal numeric status in
`http.status_code`. -/
def on_response (status : Nat) (span : Span) : Span :=
  { span with otelStatusCode := some (otelStatus status), httpStatusCode := some status }

/-- The classification as the specification words it, reading
"2xx/3xx-equivalent success" as the statuses 200..=399. Used only to
compare the claim with the code. -/
def claimClassify (s : Nat) : String :=
  if 200 ≤ s && s < 400 then "ok"
  else if 400 ≤ s && s < 600 then "error"
  else "unset"

/-- The two Unix termination signals waited on by `shutdown_signal`. -/
inductive Signal where
  | sigterm
  | sigint
deriving DecidableEq

/-- `Except.isOk` as a local helper. -/
def isOkE {ε α : Type} : Except ε α → Bool
  | .ok _ => true
  | .error _ => false

/-- `shutdown_signal` (the `cfg(unix)` variant, lines 136-149): install
the SIGTERM listener, then the SIGINT listener — a failed installation
hits `expect`, which panics; the panic is modelled as `Except.error`
carrying the `expect` message, standing for a process abort. With both
listeners installed, `tokio::select!` returns on the first signal that
fires. -/
def shutdown_signal (termInstall intInstall : Except String Unit) (first : Signal) :
    Except String Signal :=
  match termInstall with
  | .error _ => .error "failed to install SIGTERM signal handler"
  | .ok _ =>
    match intInstall with
    | .error _ => .error "failed to install SIGINT signal handler"
    | .ok _ => .ok first

/-- `watchman_client::pdu::QueryResult`, restricted to the one field the
filter inspects: the optional list of changed-file names (the `NameOnly`
field projection). -/
structure QueryResult where
  files : Option (List String)
deriving DecidableEq

/-- `watchman_client::SubscriptionData`: a files-changed notification or
one of the control messages (state-enter, state-leave, cancellation). -/
inductive SubscriptionData where
  | filesChanged (result : QueryResult)
  | stateEnter (stateName : String)
  | stateLeave (stateName : String)
  | canceled
deriving DecidableEq

/-- True exactly on `SubscriptionData::FilesChanged`. -/
def isFilesChanged : SubscriptionData → Bool
  | .filesChanged _ => true
  | _ => false

/-- The `try_filter_map` closure (lines 189-199): a files-changed batch
with a present file list passes through as that list of names; every
other event maps to `None` (dropped with no error, since the closure
always returns `Ok`). -/
def filterEvent : SubscriptionData → Option (List String)
  | .filesChanged { files := some files } => some files
  | _ => none

/-- `anyhow::Context::context("Could not reload templates")` applied to a
reload error. -/
def reloadContext (e : String) : String := "Could not reload templates: " ++ e

/-- Outcome of running the spawned watch future over a finite stream
prefix: the file lists of the reload invocations, in order, and the
single terminal error logged by `inspect_err`, if the future ended in
error. -/
structure WatchOutcome where
  reloads : List (List String)
  errorReported : Option String
deriving DecidableEq

/-- The spawned watch future (lines 188-214): the merged stream is
filtered by `try_filter_map` and consumed by `try_for_each`, which stops
at the first error — whether a stream-level error or a failed reload.
`reload k files` is the result of the reload invocation with index `k`
(the outcome depends on the filesystem at call time). A stream item
`Except.error e` is a transport-level failure from `sub.next()`. -/
def runWatch (reload : Nat → List String → Except String Unit) :
    List (Except String SubscriptionData) → Nat → WatchOutcome
  | [], _ => { reloads := [], errorReported := none }
  | .error e :: _, _ => { reloads := [], errorReported := some e }
  | .ok ev :: rest, k =>
    match filterEvent ev with
    | none => runWatch reload rest k
    | some files =>
      match reload k files with
      | .ok _ =>
        let r := runWatch reload rest (k + 1)
        { reloads := files :: r.reloads, errorReported := r.errorReported }
      | .error e => { reloads := [files], errorReported := some (reloadContext e) }

/-- The batches of a stream prefix that pass the `try_filter_map` filter. -/
def filteredBatches : List (Except String SubscriptionData) → List (List String)
  | [] => []
  | .error _ :: rest => filteredBatches rest
  | .ok ev :: rest =>
    match filterEvent ev with
    | none => filteredBatches rest
    | some files => files :: filteredBatches rest

/-- A stream prefix is a clean run from invocation index `k`: it contains
no stream-level error and every reload it triggers succeeds. -/
def cleanRun (reload : Nat → List String → Except String Unit) :
    Nat → List (Except String SubscriptionData) → Bool
  | _, [] => true
  | _, .error _ :: _ => false
  | k, .ok ev :: rest =>
    match filterEvent ev with
    | none => cleanRun reload k rest
    | some files => isOkE (reload k files) && cleanRun reload (k + 1) rest

/-- The external capabilities used by the setup loop of `watch_templates`
(lines 168-186): `CanonicalPath::canonicalize`, `Client::resolve_root`
and `Client::subscribe`, each fallible. Resolved roots and subscriptions
are represented by opaque numeric handles. -/
structure SetupEnv where
  canonicalize : String → Except String String
  resolveRoot : String → Except String Nat
  subscribe : Nat → Except String Nat

/-- The body of the setup loop for one root: canonicalize, resolve,
subscribe, each `?` propagating the error out of `watch_templates`. -/
def rootSetup (env : SetupEnv) (root : String) : Except String Nat :=
  match env.canonicalize root with
  | .error e => .error e
  | .ok c =>
    match env.resolveRoot c with
    | .error e => .error e
    | .ok resolved =>
      match env.subscribe resolved with
      | .error e => .error e
      | .ok sub => .ok sub

/-- The `for root in roots` setup loop: process the roots in order,
accumulating one subscription stream per root; the first failure aborts
the whole function with that error. -/
def setupStreams (env : SetupEnv) : List String → Except String (List Nat)
  | [] => .ok []
  | root :: rest =>
    match rootSetup env root with
    | .error e => .error e
    | .ok sub =>
      match setupStreams env rest with
      | .error e => .error e
      | .ok subs => .ok (sub :: subs)

/-- What `watch_templates` produces: the value returned to its caller,
and the outcome of the spawned watch future when setup succeeded
(`none` when no future was spawned because setup failed). -/
structure WatchTemplatesResult where
  result : Except String Unit
  spawned : Option WatchOutcome

/-- `watch_templates` (lines 152-219): run the setup loop over the watch
roots; on failure return the error and spawn nothing, on success spawn
the watch future over the merged stream (taken here as the interleaved
list `events`) and return `Ok(())` immediately — the spawned future is
detached and its outcome never reaches the caller. -/
def watch_templates (env : SetupEnv) (roots : List String)
    (events : List (Except String SubscriptionData))
    (reload : Nat → List String → Except String Unit) : WatchTemplatesResult :=
  match setupStreams env roots with
  | .error e => { result := .error e, spawned := none }
  | .ok _ => { result := .ok (), spawned := some (runWatch reload events 0) }

/-- Fixture: a reload oracle whose first invocation fails with a template
syntax error and whose later invocations succeed. -/
def reloadFailFirst : Nat → List String → Except String Unit :=
  fun k _ => if k == 0 then .error "template syntax error" else .ok ()

/-- Fixture: a reload oracle whose second invocation (index 1) fails. -/
def reloadFailSecond : Nat → List String → Except String Unit :=
  fun k _ => if k == 1 then .error "bad template" else .ok ()

/-- Fixture: a reload oracle that always succeeds. -/
def reloadAlwaysOk : Nat → List String → Except String Unit :=
  fun _ _ => .ok ()

/-- Fixture: a merged stream prefix carrying two files-changed batches. -/
def eventsTwoBatches : List (Except String SubscriptionData) :=
  [.ok (.filesChanged { files := some ["a.html"] }),
   .ok (.filesChanged { files := some ["b.html"] })]

/-- Fixture: a setup environment in which every capability succeeds. -/
def envOk : SetupEnv :=
  { canonicalize := fun s => .ok s
    resolveRoot := fun _ => .ok 0
    subscribe := fun _ => .ok 1 }

/-- Fixture: an extractor returning a remote span context (a request that
carried a valid remote trace header). -/
def extractRemote : Headers → Context :=
  fun _ => { spanContext := { traceId := 7, spanId := 3, isRemote := true } }

/-- Fixture: an extractor returning the local/default context (no trace
header, so the propagator defaulted). -/
def extractLocal : Headers → Context :=
  fun _ => Context.new

/-- Fixture: a plain request with no headers. -/
def reqSimple : Request :=
  { method := "GET", uri := "/", version := .HTTP_11, headers := [] }

/-- Fixture: a request whose user-agent header value holds the byte 200,
which `HeaderValue::from_bytes` accepts (any byte that is at least 32 and
not 127 is a valid header byte) but `to_str` rejects. -/
def reqBadUserAgent : Request :=
  { method := "GET", uri := "/", version := .HTTP_11,
    headers := [("user-agent", [200])] }

/-- Fixture: a request whose user-agent header decodes to "curl". -/
def reqGoodUserAgent : Request :=
  { method := "GET", uri := "/", version := .HTTP_2,
    headers := [("user-agent", [99, 117, 114, 108])] }

/-- The watch future over a clean stream prefix `es1` followed by
anything: the prefix contributes its filtered batches as successful
reloads and processing continues into the remainder with the invocation
index advanced by the number of batches consumed. -/
theorem runWatch_clean_append (reload : Nat → List String → Except String Unit)
    (es1 : List (Except String SubscriptionData)) :
    ∀ (es2 : List (Except String SubscriptionData)) (k : Nat),
      cleanRun reload k es1 = true →
      runWatch reload (es1 ++ es2) k =
        { reloads := filteredBatches es1 ++
            (runWatch reload es2 (k + (filteredBatches es1).length)).reloads,
          errorReported :=
            (runWatch reload es2 (k + (filteredBatches es1).length)).errorReported } := by
  induction es1 with
  | nil =>
    intro es2 k _
    simp [filteredBatches, runWatch]
  | cons x rest ih =>
    intro es2 k h
    cases x with
    | error e => simp [cleanRun] at h
    | ok ev =>
      cases hf : filterEvent ev with
      | none =>
        have h2 : cleanRun reload k rest = true := by
          simpa [cleanRun, hf] using h
        simp [runWatch, hf, filteredBatches, ih es2 k h2]
      | some files =>
        have h1 : isOkE (reload k files) = true ∧ cleanRun reload (k + 1) rest = true := by
          simpa [cleanRun, hf] using h
        cases hr : reload k files with
        | error e => rw [hr] at h1; simp [isOkE] at h1
        | ok u =>
          have hrec := ih es2 (k + 1) h1.2
          simp only [List.cons_append, runWatch, hf, hr, filteredBatches,
            List.length_cons, List.append_eq]
          rw [hrec, show k + 1 + (filteredBatches rest).length
                = k + ((filteredBatches rest).length + 1) from by omega]

/-- Setup of the per-root subscriptions succeeds exactly when every root
canonicalizes, resolves and subscribes successfully. -/
theorem setupStreams_isOk_iff (env : SetupEnv) :
    ∀ roots : List String,
      isOkE (setupStreams env roots) = true ↔
        ∀ root ∈ roots, isOkE (rootSetup env root) = true := by
  intro roots
  induction roots with
  | nil => simp [setupStreams, isOkE]
  | cons r rs ih =>
    cases h1 : rootSetup env r with
    | error e => simp [setupStreams, h1, isOkE]
    | ok sub =>
      cases h2 : setupStreams env rs with
      | error e =>
        rw [h2] at ih
        simp only [setupStreams, h1, h2, isOkE]
        simp only [isOkE] at ih
        simp [← ih, h1, isOkE]
      | ok subs =>
        rw [h2] at ih
        simp only [isOkE] at ih
        simp [setupStreams, h1, h2, isOkE, ← ih]

/-- A successful setup produced one subscription stream per root. -/
theorem setupStreams_length (env : SetupEnv) :
    ∀ (roots : List String) (subs : List Nat),
      setupStreams env roots = .ok subs → subs.length = roots.length := by
  intro roots
  induction roots with
  | nil =>
    intro subs h
    simp only [setupStreams] at h
    cases h
    rfl
  | cons r rs ih =>
    intro subs h
    simp only [setupStreams] at h
    cases h1 : rootSetup env r with
    | error e => rw [h1] at h; cases h
    | ok sub =>
      rw [h1] at h
      cases h2 : setupStreams env rs with
      | error e => rw [h2] at h; cases h
      | ok tl =>
        rw [h2] at h
        cases h
        simp [ih tl h2]

/-- Claim C1, counterexample: with two files-changed batches on the stream
and a reload oracle whose first invocation fails, the loop performs only
the first reload invocation — batch 2 passes the filter but never triggers
a reload, because `try_for_each` stops at the first error. The claim's
prediction that batch k+1 still triggers another reload invocation is
therefore false. -/
theorem watch_reload_failure_counterexample :
    (filteredBatches eventsTwoBatches).length = 2 ∧
    (runWatch reloadFailFirst eventsTwoBatches 0).reloads = [["a.html"]] ∧
    (runWatch reloadFailFirst eventsTwoBatches 0).errorReported =
      some (reloadContext "template syntax error") :=
  ⟨rfl, rfl, rfl⟩

/-- Claim C1, amended: a failure of an individual template reload attempt
for batch k is reported (with the "Could not reload templates" context)
and terminates the watch loop: the next filtered batch k+1 is never
processed and no further reload invocation occurs, because `try_for_each`
treats a reload error exactly like a stream error. -/
theorem watch_reload_failure_stops_loop
    (reload : Nat → List String → Except String Unit)
    (es1 es2 : List (Except String SubscriptionData))
    (ev : SubscriptionData) (files : List String) (e : String)
    (h1 : cleanRun reload 0 es1 = true)
    (h2 : filterEvent ev = some files)
    (h3 : reload (filteredBatches es1).length files = .error e) :
    runWatch reload (es1 ++ .ok ev :: es2) 0 =
      { reloads := filteredBatches es1 ++ [files],
        errorReported := some (reloadContext e) } := by
  rw [runWatch_clean_append reload es1 (.ok ev :: es2) 0 h1]
  simp [runWatch, h2, h3]

/-- Witness for the amended claim C1 at a concrete input: a clean first
batch, then a batch whose reload (invocation index 1) fails, then a
further event that is never reached. -/
theorem watch_reload_failure_stops_loop_witness :
    runWatch reloadFailSecond
        ([.ok (.filesChanged { files := some ["x.html"] })] ++
          .ok (.filesChanged { files := some ["y.html"] }) :: [.ok .canceled]) 0 =
      { reloads := filteredBatches [.ok (.filesChanged { files := some ["x.html"] })] ++
          [["y.html"]],
        errorReported := some (reloadContext "bad template") } :=
  watch_reload_failure_stops_loop reloadFailSecond
    [.ok (.filesChanged { files := some ["x.html"] })] [.ok .canceled]
    (.filesChanged { files := some ["y.html"] }) ["y.html"] "bad template"
    rfl rfl rfl

/-- Claim C4: a stream-level error after the clean prefix `es1` stops the
watch loop permanently — the error is reported once and no batch of the
remainder `es2` is ever processed, whatever `es2` contains — while
`watch_templates` itself has already returned `Ok(())` to its caller
(the loop runs in a detached spawned task), so the hosting process keeps
serving. -/
theorem watch_stream_error_stops_loop
    (reload : Nat → List String → Except String Unit)
    (es1 es2 : List (Except String SubscriptionData)) (e : String)
    (h : cleanRun reload 0 es1 = true) :
    runWatch reload (es1 ++ .error e :: es2) 0 =
      { reloads := filteredBatches es1, errorReported := some e } ∧
    ∀ (env : SetupEnv) (roots : List String) (subs : List Nat),
      setupStreams env roots = .ok subs →
      (watch_templates env roots (es1 ++ .error e :: es2) reload).result = .ok () := by
  constructor
  · rw [runWatch_clean_append reload es1 (.error e :: es2) 0 h]
    simp [runWatch]
  · intro env roots subs hs
    simp [watch_templates, hs]

/-- Witness for claim C4 at a concrete input: one clean batch, then a
transport error, then a files-changed batch that is never processed. -/
theorem watch_stream_error_stops_loop_witness :
    runWatch reloadAlwaysOk
        ([.ok (.filesChanged { files := some ["x.html"] })] ++
          .error "connection reset" :: [.ok (.filesChanged { files := some ["y.html"] })]) 0 =
      { reloads := filteredBatches [.ok (.filesChanged { files := some ["x.html"] })],
        errorReported := some "connection reset" } ∧
    (watch_templates envOk ["templates"]
        ([.ok (.filesChanged { files := some ["x.html"] })] ++
          .error "connection reset" :: [.ok (.filesChanged { files := some ["y.html"] })])
        reloadAlwaysOk).result = .ok () := by
  have h := watch_stream_error_stops_loop reloadAlwaysOk
    [.ok (.filesChanged { files := some ["x.html"] })]
    [.ok (.filesChanged { files := some ["y.html"] })] "connection reset" rfl
  exact ⟨h.1, h.2 envOk ["templates"] [1] rfl⟩

/-- Claim C6: an event whose payload is not a files-changed notification
maps to `None` in the filter (the filter closure always returns `Ok`, so
no error is surfaced), consuming it leaves the loop state unchanged (no
reload invocation), and over any clean stream prefix the reload
invocations are exactly the filtered batches — their number equals the
number of batches that pass the filter. -/
theorem watch_filter_drops_non_files_changed
    (reload : Nat → List String → Except String Unit) (k : Nat)
    (ev : SubscriptionData) (rest es : List (Except String SubscriptionData))
    (h : isFilesChanged ev = false)
    (hc : cleanRun reload 0 es = true) :
    filterEvent ev = none ∧
    runWatch reload (.ok ev :: rest) k = runWatch reload rest k ∧
    (runWatch reload es 0).reloads = filteredBatches es := by
  have hnone : filterEvent ev = none := by
    cases ev with
    | filesChanged result => simp [isFilesChanged] at h
    | stateEnter s => rfl
    | stateLeave s => rfl
    | canceled => rfl
  refine ⟨hnone, by simp [runWatch, hnone], ?_⟩
  have hap := runWatch_clean_append reload es [] 0 hc
  rw [List.append_nil] at hap
  rw [hap]
  simp [runWatch]

/-- Witness for claim C6 at a concrete input: a cancellation notice is
dropped without effect, and a clean two-batch stream performs exactly its
two filtered reloads. -/
theorem watch_filter_drops_non_files_changed_witness :
    filterEvent .canceled = none ∧
    runWatch reloadAlwaysOk (.ok .canceled :: eventsTwoBatches) 0 =
      runWatch reloadAlwaysOk eventsTwoBatches 0 ∧
    (runWatch reloadAlwaysOk eventsTwoBatches 0).reloads =
      filteredBatches eventsTwoBatches :=
  watch_filter_drops_non_files_changed reloadAlwaysOk 0 .canceled
    eventsTwoBatches eventsTwoBatches rfl rfl

/-- Claim C10: a files-changed notification whose `files` field is absent
maps to `None` in the filter and consuming it is a no-op (no reload, no
error), while a files-changed notification with a present list passes
through as exactly that list, which is what the reload invocation (and
its log record) receives. -/
theorem watch_absent_file_list_dropped
    (reload : Nat → List String → Except String Unit) (k : Nat)
    (rest : List (Except String SubscriptionData)) (files : List String) :
    filterEvent (.filesChanged { files := none }) = none ∧
    runWatch reload (.ok (.filesChanged { files := none }) :: rest) k =
      runWatch reload rest k ∧
    filterEvent (.filesChanged { files := some files }) = some files ∧
    (runWatch reload (.ok (.filesChanged { files := some files }) :: rest) k).reloads.head? =
      some files := by
  refine ⟨rfl, by simp [runWatch, filterEvent], rfl, ?_⟩
  cases hr : reload k files with
  | ok u => simp [runWatch, filterEvent, hr]
  | error e => simp [runWatch, filterEvent, hr]

/-- Claim C3: watcher setup is all-or-nothing — it succeeds exactly when
every root canonicalizes, resolves and subscribes successfully; success
yields one subscription per root, and any failure makes `watch_templates`
return that error with no watch future spawned, so the caller receives no
partial watcher. -/
theorem watch_setup_all_or_nothing (env : SetupEnv) (roots : List String) :
    (isOkE (setupStreams env roots) = true ↔
      ∀ root ∈ roots, isOkE (rootSetup env root) = true) ∧
    (∀ subs, setupStreams env roots = .ok subs → subs.length = roots.length) ∧
    (∀ e events reload, setupStreams env roots = .error e →
      watch_templates env roots events reload =
        { result := .error e, spawned := none }) := by
  refine ⟨setupStreams_isOk_iff env roots, setupStreams_length env roots, ?_⟩
  intro e events reload hs
  simp [watch_templates, hs]

/-- Witness for claim C3 at concrete inputs: with an all-succeeding
environment and two roots, setup succeeds and yields two subscriptions;
and in an environment whose resolver fails, `watch_templates` spawns
nothing and returns the error. -/
theorem watch_setup_all_or_nothing_witness :
    (isOkE (setupStreams envOk ["a", "b"]) = true ↔
      ∀ root ∈ (["a", "b"] : List String), isOkE (rootSetup envOk root) = true) ∧
    ([1, 1] : List Nat).length = (["a", "b"] : List String).length ∧
    watch_templates
        { canonicalize := fun s => .ok s
          resolveRoot := fun _ => .error "watchman error"
          subscribe := fun _ => .ok 1 }
        ["a"] eventsTwoBatches reloadAlwaysOk =
      { result := .error "watchman error", spawned := none } := by
  have h1 := watch_setup_all_or_nothing envOk ["a", "b"]
  have h2 := watch_setup_all_or_nothing
    { canonicalize := fun s => .ok s
      resolveRoot := fun _ => .error "watchman error"
      subscribe := fun _ => .ok 1 } ["a"]
  exact ⟨h1.1, h1.2.1 [1, 1] rfl, h2.2.2 "watchman error" eventsTwoBatches reloadAlwaysOk rfl⟩

/-- Claim C2, counterexample: the claim reads "ok" as covering
2xx/3xx-equivalent successes, but at status 301 the code classifies
"unset", because `StatusCode::is_success` covers only 2xx. -/
theorem status_classification_counterexample :
    claimClassify 301 = "ok" ∧ otelStatus 301 = "unset" ∧
    otelStatus 301 ≠ claimClassify 301 :=
  ⟨rfl, rfl, by decide⟩

/-- Claim C2, amended: `on_response` records onto the span exactly one
coarse classification — "ok" when the status is a 2xx success, "error"
when it is 4xx or 5xx, and "unset" otherwise (in particular 3xx is
"unset") — and always records the literal numeric status code verbatim;
200 maps to "ok", 404 and 500 to "error", 101 to "unset". -/
theorem on_response_classification (s : Nat) (span : Span) :
    (on_response s span).otelStatusCode = some (otelStatus s) ∧
    (on_response s span).httpStatusCode = some s ∧
    (otelStatus s = "ok" ↔ 200 ≤ s ∧ s < 300) ∧
    (otelStatus s = "error" ↔ 400 ≤ s ∧ s < 600) ∧
    (otelStatus s = "unset" ↔ s < 200 ∨ (300 ≤ s ∧ s < 400) ∨ 600 ≤ s) ∧
    otelStatus 200 = "ok" ∧ otelStatus 404 = "error" ∧
    otelStatus 500 = "error" ∧ otelStatus 101 = "unset" := by
  refine ⟨rfl, rfl, ?_, ?_, ?_, rfl, rfl, rfl, rfl⟩ <;>
    · simp only [otelStatus, is_success, is_client_error, is_server_error]
      split
      · rename_i hb
        simp only [Bool.and_eq_true, decide_eq_true_eq] at hb
        simp only [String.reduceEq, false_iff, true_iff]
        omega
      · rename_i hb
        simp only [Bool.and_eq_true, decide_eq_true_eq, not_and, Bool.not_eq_true,
          decide_eq_false_iff_not, Classical.not_and_iff_or_not_not] at hb
        split
        · rename_i hc
          simp only [Bool.or_eq_true, Bool.and_eq_true, decide_eq_true_eq] at hc
          simp only [String.reduceEq, false_iff, true_iff]
          omega
        · rename_i hc
          simp only [Bool.or_eq_true, Bool.and_eq_true, decide_eq_true_eq] at hc
          push_neg at hc
          simp only [String.reduceEq, false_iff, true_iff]
          omega

/-- Claim C5: the request span is parented to the extracted context
exactly when the extracted span context is remote; otherwise the parent
is a fresh `Context::new()` — never the degenerate extracted default. -/
theorem make_span_remote_parenting (extract : Headers → Context) (request : Request) :
    ((extract request.headers).spanContext.isRemote = true →
      (make_span extract request).parent = extract request.headers) ∧
    ((extract request.headers).spanContext.isRemote = false →
      (make_span extract request).parent = Context.new) := by
  constructor <;> intro h <;> simp [make_span, h]

/-- Witness for claim C5 at concrete inputs: a remote extraction becomes
the parent, a local/default extraction is replaced by a fresh context. -/
theorem make_span_remote_parenting_witness :
    (make_span extractRemote reqSimple).parent = extractRemote reqSimple.headers ∧
    (make_span extractLocal reqSimple).parent = Context.new :=
  ⟨(make_span_remote_parenting extractRemote reqSimple).1 rfl,
   (make_span_remote_parenting extractLocal reqSimple).2 rfl⟩

/-- Claim C7, counterexample: a request whose user-agent header is
present but holds the byte 200 (a valid header byte, rejected by
`to_str`) gets no user-agent recorded on its span, refuting "records the
user-agent header's value on the span when such a header is present". -/
theorem make_span_user_agent_counterexample :
    (headerGet reqBadUserAgent.headers "user-agent").isSome = true ∧
    isVisibleAscii 200 = false ∧
    (make_span extractLocal reqBadUserAgent).httpUserAgent = none :=
  ⟨rfl, rfl, rfl⟩

/-- Claim C7, amended: `make_span` maps each of the five known HTTP
versions to its canonical textual string and records the empty string for
any unrecognized version, and records the user-agent header's value on
the span when such a header is present and its value decodes as visible
ASCII (`to_str` succeeds); an absent or undecodable header leaves the
field unrecorded. -/
theorem make_span_version_and_user_agent (extract : Headers → Context) (request : Request) :
    (request.version = .HTTP_09 → (make_span extract request).httpFlavor = "0.9") ∧
    (request.version = .HTTP_10 → (make_span extract request).httpFlavor = "1.0") ∧
    (request.version = .HTTP_11 → (make_span extract request).httpFlavor = "1.1") ∧
    (request.version = .HTTP_2 → (make_span extract request).httpFlavor = "2.0") ∧
    (request.version = .HTTP_3 → (make_span extract request).httpFlavor = "3.0") ∧
    (request.version = .Other → (make_span extract request).httpFlavor = "") ∧
    (∀ bytes s, headerGet request.headers "user-agent" = some bytes →
      toStr bytes = some s → (make_span extract request).httpUserAgent = some s) ∧
    (∀ bytes, headerGet request.headers "user-agent" = some bytes →
      toStr bytes = none → (make_span extract request).httpUserAgent = none) ∧
    (headerGet request.headers "user-agent" = none →
      (make_span extract request).httpUserAgent = none) := by
  refine ⟨?_, ?_, ?_, ?_, ?_, ?_, ?_, ?_, ?_⟩
  · intro h; simp [make_span, h, versionString]
  · intro h; simp [make_span, h, versionString]
  · intro h; simp [make_span, h, versionString]
  · intro h; simp [make_span, h, versionString]
  · intro h; simp [make_span, h, versionString]
  · intro h; simp [make_span, h, versionString]
  · intro bytes s h1 h2; simp [make_span, h1, h2]
  · intro bytes h1 h2; simp [make_span, h1, h2]
  · intro h1; simp [make_span, h1]

/-- Witness for the amended claim C7 at a concrete input: an HTTP/2
request whose user-agent decodes to "curl" gets flavor "2.0" and the
decoded user-agent recorded. -/
theorem make_span_version_and_user_agent_witness :
    (make_span extractLocal reqGoodUserAgent).httpFlavor = "2.0" ∧
    (make_span extractLocal reqGoodUserAgent).httpUserAgent = some "curl" := by
  have h := make_span_version_and_user_agent extractLocal reqGoodUserAgent
  exact ⟨h.2.2.2.1 rfl, h.2.2.2.2.2.2.1 [99, 117, 114, 108] "curl" rfl (by decide)⟩

/-- Claim C8: if installing either termination-signal listener fails, the
`expect` call panics, modelled as an error outcome standing for a process
abort — `shutdown_signal` never returns normally in that case, whichever
signal would have fired first. -/
theorem shutdown_signal_install_failure_fatal
    (termInstall intInstall : Except String Unit) (first : Signal)
    (h : isOkE termInstall = false ∨ isOkE intInstall = false) :
    isOkE (shutdown_signal termInstall intInstall first) = false := by
  cases termInstall with
  | error e => simp [shutdown_signal, isOkE]
  | ok u =>
    cases intInstall with
    | error e => simp [shutdown_signal, isOkE]
    | ok v => simp [isOkE] at h

/-- Witness for claim C8 at concrete inputs: a failed SIGTERM listener
installation, and a failed SIGINT listener installation, each abort. -/
theorem shutdown_signal_install_failure_fatal_witness :
    isOkE (shutdown_signal (.error "no permissions") (.ok ()) .sigterm) = false ∧
    isOkE (shutdown_signal (.ok ()) (.error "no permissions") .sigint) = false :=
  ⟨shutdown_signal_install_failure_fatal (.error "no permissions") (.ok ()) .sigterm
      (Or.inl rfl),
   shutdown_signal_install_failure_fatal (.ok ()) (.error "no permissions") .sigint
      (Or.inr rfl)⟩

end MasServer
